import Mathlib

/-!
Shallow embedding of `.config/ardour8/scripts/midi_to_xdotool.py`:
a MIDI-to-xdotool bridge that translates padKONTROL control-surface
events into synthetic key/mouse input aimed at the Ardour window.

Modelling conventions:
* External subprocess calls are oracles in an `Env`: the n-th
  `xdotool search` invocation returns `Env.searchFn n` (None models a
  `CalledProcessError`/`IndexError`, i.e. no visible window), and the
  n-th injection `subprocess.run` returns the return code `Env.runFn n`.
  `Env.now` stands for `time.monotonic()`.
* The module-level mutable globals (`ardour_window`, `held_repeaters`,
  `last_touchpad_cc`, `last_touchpad_pitch`, `active_notes`) together
  with the two oracle call counters form the explicit state `St`.
  Python dicts are modelled as association lists with unique keys.
* Observable side effects (spawned subprocesses, stderr prints, thread
  starts, stop-event signals) are collected in a trace of `Effect`s.
* A thread handle is modelled by its observable fields: whether its
  stop event has been set and whether `is_alive()` returns true.
* Python floats appear only in `TOUCHPAD_X_SENSITIVITY = 0.05`; the
  literal is modelled as the exact rational 1/20 and `int(...)` as
  truncation toward zero.
-/

namespace MidiXdo

/-- Configuration constants copied from the script. -/
def ARROW_KEY_REPEAT_COUNT : Nat := 1

def ARROW_RIGHT_SINGLE_PRESS : Nat := 1

def ARROW_RIGHT_REPEAT_COUNT : Nat := 3

def MOUSE_SCROLL_REPEAT_COUNT : Nat := 1

def MOUSE_SCROLL_UP_BUTTON : String := "4"

def MOUSE_SCROLL_DOWN_BUTTON : String := "5"

def ARDOUR_WINDOW_NAME : String := "Ardour"

def MIDI_CHANNEL : Nat := 9

def NOTE_ZOOM_IN : Nat := 49

def NOTE_ZOOM_OUT : Nat := 51

def NOTE_ARROW_LEFT : Nat := 68

def NOTE_ARROW_RIGHT : Nat := 56

def NOTE_SCROLL_DOWN : Nat := 63

def NOTE_SCROLL_UP : Nat := 55

def NOTE_HOME : Nat := 48

def NOTE_SPACE : Nat := 52

def TOUCHPAD_CONTROLLER : Nat := 1

/-- Pixels per pitch-bend delta unit (`0.05` in the script, an exact
rational here). -/
def TOUCHPAD_X_SENSITIVITY : Rat := 0.05

/-- Pixels per CC delta unit (`4` in the script). -/
def TOUCHPAD_Y_SENSITIVITY : Rat := 4

/-- Diagnostic toggle for `debug`; `False` in the script. -/
def DEBUG_NOTES : Bool := false

/-- Describes how a MIDI note should control Ardour
(`@dataclass(frozen=True) class Action`). -/
structure Action where
  kind : String
  value : String
  immediate_count : Nat := 1
  hold_repeat_count : Option Nat := none
  deriving Repr, DecidableEq

/-- The `NOTE_ACTIONS` dict, as a partial map from note number to action. -/
def NOTE_ACTIONS (note : Nat) : Option Action :=
  if note = NOTE_ZOOM_IN then some { kind := "key", value := "minus" }
  else if note = NOTE_ZOOM_OUT then some { kind := "key", value := "Escape" }
  else if note = NOTE_ARROW_LEFT then
    some { kind := "key", value := "Left",
           immediate_count := ARROW_KEY_REPEAT_COUNT,
           hold_repeat_count := some ARROW_KEY_REPEAT_COUNT }
  else if note = NOTE_ARROW_RIGHT then
    some { kind := "key", value := "Right",
           immediate_count := ARROW_RIGHT_SINGLE_PRESS,
           hold_repeat_count := some ARROW_RIGHT_REPEAT_COUNT }
  else if note = NOTE_SCROLL_DOWN then
    some { kind := "mouse", value := MOUSE_SCROLL_DOWN_BUTTON,
           hold_repeat_count := some MOUSE_SCROLL_REPEAT_COUNT }
  else if note = NOTE_SCROLL_UP then
    some { kind := "mouse", value := MOUSE_SCROLL_UP_BUTTON,
           hold_repeat_count := some MOUSE_SCROLL_REPEAT_COUNT }
  else if note = NOTE_HOME then some { kind := "key", value := "Home" }
  else if note = NOTE_SPACE then some { kind := "key", value := "space" }
  else none

/-- Observable state of a repeater thread handle
(`RepeaterHandle(stop_event, thread)`): whether `stop_event.set()` has
been called and whether `thread.is_alive()` holds. -/
structure RepeaterHandle where
  stop_event : Bool
  alive : Bool
  deriving Repr, DecidableEq

/-- Observable side effects of the script: an xdotool subprocess launch,
a stderr diagnostic line, a repeater thread start, a stop-event signal. -/
inductive Effect where
  | run (cmd : List String) : Effect
  | err (msg : String) : Effect
  | spawn (note : Nat) : Effect
  | setStop (note : Nat) : Effect
  deriving Repr, DecidableEq

/-- External-world oracle: results of the xdotool subprocess calls and
the current monotonic clock. -/
structure Env where
  searchFn : Nat → Option String
  runFn : Nat → Int
  now : Nat

/-- The script's mutable globals plus the two oracle call counters. -/
structure St where
  ardour_window : Option String
  searchCalls : Nat
  runCalls : Nat
  held_repeaters : List (Nat × RepeaterHandle)
  last_touchpad_cc : Option Int
  last_touchpad_pitch : Option Int
  active_notes : List (Nat × Nat)
  deriving Repr, DecidableEq

/-- Module-level initial values of the globals. -/
def initialSt : St :=
  { ardour_window := none, searchCalls := 0, runCalls := 0,
    held_repeaters := [], last_touchpad_cc := none,
    last_touchpad_pitch := none, active_notes := [] }

/-- Association-list lookup, modelling `dict.get`. -/
def alistLookup {α : Type} (l : List (Nat × α)) (k : Nat) : Option α :=
  match l with
  | [] => none
  | (k1, v) :: rest => if k1 = k then some v else alistLookup rest k

/-- Association-list key removal, modelling `dict.pop` / `del`. -/
def alistRemove {α : Type} (l : List (Nat × α)) (k : Nat) : List (Nat × α) :=
  l.filter (fun p => p.1 != k)

/-- Association-list update, modelling `d[k] = v`. -/
def alistInsert {α : Type} (l : List (Nat × α)) (k : Nat) (v : α) : List (Nat × α) :=
  (k, v) :: alistRemove l k

/-- Number of subprocess launches (injection calls) in a trace. -/
def countRun (effs : List Effect) : Nat :=
  (effs.filter fun e => match e with | .run _ => true | _ => false).length

/-- Number of stderr diagnostic lines in a trace. -/
def countErr (effs : List Effect) : Nat :=
  (effs.filter fun e => match e with | .err _ => true | _ => false).length

/-- Number of repeater threads started in a trace. -/
def countSpawn (effs : List Effect) : Nat :=
  (effs.filter fun e => match e with | .spawn _ => true | _ => false).length

/-- The `debug(msg)` helper: prints to stderr only when the
`DEBUG_NOTES` toggle (passed explicitly here) is on. -/
def debug (dbg : Bool) (msg : String) : List Effect :=
  if dbg then [Effect.err msg] else []

/-- `get_ardour_window(force_refresh)`: find and cache the Ardour main
window ID. On forced refresh the cache is cleared first; a cached
(nonempty) ID is returned without a subprocess call; otherwise one
`xdotool search` runs and its first output line (None on process
failure or empty output) becomes the new cache value. -/
def get_ardour_window (env : Env) (force_refresh : Bool) (st : St) :
    Option String × St :=
  let st0 := if force_refresh then { st with ardour_window := none } else st
  match st0.ardour_window with
  | some w => (some w, st0)
  | none =>
      let res := env.searchFn st0.searchCalls
      (res, { st0 with searchCalls := st0.searchCalls + 1, ardour_window := res })

/-- `_run_with_window(cmd_builder)`: run an xdotool command tied to the
Ardour window, retrying once if needed. The `for refresh in (False,
True)` loop is unrolled into its two iterations: first attempt against
the initially resolved window; on non-zero status, forced re-resolution
and a single retry (abandoned when re-resolution finds no window). -/
def run_with_window (env : Env) (cmd_builder : String → List String) (st : St) :
    Bool × St × List Effect :=
  match get_ardour_window env false st with
  | (none, st1) =>
      (false, st1, [Effect.err "Error: Ardour window not found; cannot send events."])
  | (some window, st1) =>
      let rc1 := env.runFn st1.runCalls
      let st2 := { st1 with runCalls := st1.runCalls + 1 }
      let e1 := Effect.run (cmd_builder window)
      if rc1 = 0 then (true, st2, [e1])
      else
        match get_ardour_window env true st2 with
        | (none, st3) =>
            (false, st3,
             [e1, Effect.err "Error: Failed to deliver events to Ardour window."])
        | (some w2, st3) =>
            let rc2 := env.runFn st3.runCalls
            let st4 := { st3 with runCalls := st3.runCalls + 1 }
            let e2 := Effect.run (cmd_builder w2)
            if rc2 = 0 then (true, st4, [e1, e2])
            else
              (false, st4,
               [e1, e2, Effect.err "Error: Failed to deliver events to Ardour window."])

/-- `send_key(key, count)`: send key events directly to the Ardour
window (the boolean result of the runner is discarded). -/
def send_key (env : Env) (key : String) (count : Nat) (st : St) :
    St × List Effect :=
  let r := run_with_window env
    (fun window =>
      ["xdotool", "key", "--window", window, "--clearmodifiers",
       "--repeat", toString count, key]) st
  (r.2.1, r.2.2)

/-- `click_mouse(button, count)`: trigger mouse clicks (wheel emulation). -/
def click_mouse (env : Env) (button : String) (count : Nat) (st : St) :
    St × List Effect :=
  let r := run_with_window env
    (fun window =>
      ["xdotool", "click", "--window", window, "--repeat", toString count,
       button]) st
  (r.2.1, r.2.2)

/-- `move_mouse(dx, dy)`: move the pointer relative to its current
position; a no-op when both deltas are zero. Not tied to a window and
its return code is ignored. -/
def move_mouse (dx : Int) (dy : Int) : List Effect :=
  if dx = 0 && dy = 0 then []
  else [Effect.run ["xdotool", "mousemove_relative", "--", toString dx, toString dy]]

/-- Python truthy fallback `count or default` for `count : Optional[int]`:
both `None` and `0` are falsy and select the default. -/
def py_or_count (count : Option Nat) (default : Nat) : Nat :=
  match count with
  | none => default
  | some c => if c = 0 then default else c

/-- Python `int(q)` on a rational: truncation toward zero. -/
def py_int_trunc (q : Rat) : Int :=
  let mag : Nat := q.num.natAbs / q.den
  if q.num < 0 then -(mag : Int) else (mag : Int)

/-- `send_action(action, count)`: dispatch the configured action with
`repetitions = count or action.immediate_count`; unknown kinds only
warn. -/
def send_action (env : Env) (action : Action) (count : Option Nat) (st : St) :
    St × List Effect :=
  let repetitions := py_or_count count action.immediate_count
  if action.kind = "key" then send_key env action.value repetitions st
  else if action.kind = "mouse" then click_mouse env action.value repetitions st
  else
    (st, [Effect.err ("Warning: Unsupported action kind \x27" ++ action.kind ++
      "\x27 for value \x27" ++ action.value ++ "\x27")])

/-- Python truthiness of `action.hold_repeat_count` being falsy
(`if not action.hold_repeat_count`): `None` or `0`. -/
def hold_repeat_falsy (action : Action) : Bool :=
  match action.hold_repeat_count with
  | none => true
  | some n => n == 0

/-- `start_repeat(note, action)`: spawn a repeating sender for the
note/action. No-op when the action has a falsy hold count or a live
repeater is already registered for the note; otherwise a fresh
stop event and thread are created, registered, and started. The whole
check-then-insert runs inside `with repeat_lock`, so it is a single
atomic step here. The spawned thread body (arming delay, cadence loop)
runs concurrently and is outside this state transition. -/
def start_repeat (note : Nat) (action : Action) (st : St) : St × List Effect :=
  if hold_repeat_falsy action then (st, [])
  else
    let existing := alistLookup st.held_repeaters note
    if (match existing with | some h => h.alive | none => false) then (st, [])
    else
      let handle : RepeaterHandle := { stop_event := false, alive := true }
      ({ st with held_repeaters := alistInsert st.held_repeaters note handle },
       [Effect.spawn note])

/-- `stop_repeat(note)`: pop the registry entry under the lock; signal
its stop event when one existed, otherwise emit only a `debug`
diagnostic. -/
def stop_repeat (dbg : Bool) (note : Nat) (st : St) : St × List Effect :=
  match alistLookup st.held_repeaters note with
  | some _ =>
      ({ st with held_repeaters := alistRemove st.held_repeaters note },
       [Effect.setStop note])
  | none =>
      (st, debug dbg
        ("[repeat] stop requested for note " ++ toString note ++
         " but no repeater active"))

/-- `handle_touchpad_vertical(value)`: first sample only stores the
baseline; later samples update it and, for a non-zero delta, move the
pointer vertically by `int(delta * TOUCHPAD_Y_SENSITIVITY)` pixels. -/
def handle_touchpad_vertical (value : Int) (st : St) : St × List Effect :=
  match st.last_touchpad_cc with
  | none => ({ st with last_touchpad_cc := some value }, [])
  | some last =>
      let delta := value - last
      let st1 := { st with last_touchpad_cc := some value }
      if delta = 0 then (st1, [])
      else (st1, move_mouse 0 (py_int_trunc (delta * TOUCHPAD_Y_SENSITIVITY)))

/-- `handle_touchpad_horizontal(pitch_value)`: first sample only stores
the baseline; later samples update it and, for a non-zero delta, move
the pointer horizontally by `int(delta * TOUCHPAD_X_SENSITIVITY)`
pixels. -/
def handle_touchpad_horizontal (pitch_value : Int) (st : St) : St × List Effect :=
  match st.last_touchpad_pitch with
  | none => ({ st with last_touchpad_pitch := some pitch_value }, [])
  | some last =>
      let delta := pitch_value - last
      let st1 := { st with last_touchpad_pitch := some pitch_value }
      if delta = 0 then (st1, [])
      else (st1, move_mouse (py_int_trunc (delta * TOUCHPAD_X_SENSITIVITY)) 0)

/-- `handle_note_on(note)`: record the active-note timestamp, look up
the action; unmapped notes only get an Info diagnostic; mapped notes
dispatch once (default count) and then arm the repeater. -/
def handle_note_on (env : Env) (dbg : Bool) (note : Nat) (st : St) :
    St × List Effect :=
  let st0 := { st with active_notes := alistInsert st.active_notes note env.now }
  let d := debug dbg ("[note] on  " ++ toString note)
  match NOTE_ACTIONS note with
  | none =>
      (st0, d ++ [Effect.err ("Info: Unmapped note_on received for note " ++ toString note)])
  | some action =>
      let r1 := send_action env action none st0
      let r2 := start_repeat note action r1.1
      (r2.1, d ++ r1.2 ++ r2.2)

/-- `handle_note_off(note)`: drop the active-note entry (debug
diagnostics distinguish whether one existed) and stop the repeater. -/
def handle_note_off (dbg : Bool) (note : Nat) (st : St) : St × List Effect :=
  let removed := alistLookup st.active_notes note
  let st0 := { st with active_notes := alistRemove st.active_notes note }
  let d :=
    match removed with
    | none => debug dbg ("[note] off " ++ toString note ++ " (no matching active note)")
    | some _ => debug dbg ("[note] off " ++ toString note)
  let r := stop_repeat dbg note st0
  (r.1, d ++ r.2)

/-- Typed MIDI messages as delivered by mido. -/
inductive MidiMsg where
  | note_on (channel note velocity : Nat) : MidiMsg
  | note_off (channel note velocity : Nat) : MidiMsg
  | control_change (channel control value : Nat) : MidiMsg
  | pitchwheel (channel : Nat) (pitch : Int) : MidiMsg
  | other (channel : Nat) (type_name : String) : MidiMsg
  deriving Repr, DecidableEq

/-- The `msg.channel` accessor. -/
def msg_channel : MidiMsg → Nat
  | .note_on ch _ _ => ch
  | .note_off ch _ _ => ch
  | .control_change ch _ _ => ch
  | .pitchwheel ch _ => ch
  | .other ch _ => ch

/-- The `msg.type` accessor (as the mido type string). -/
def msg_type_name : MidiMsg → String
  | .note_on _ _ _ => "note_on"
  | .note_off _ _ _ => "note_off"
  | .control_change _ _ _ => "control_change"
  | .pitchwheel _ _ => "pitchwheel"
  | .other _ t => t

/-- One iteration of the main `for msg in inport` loop: silent drop of
non-matching channels, then classification into press / release /
vertical / horizontal / unsupported. -/
def process_msg (env : Env) (dbg : Bool) (msg : MidiMsg) (st : St) :
    St × List Effect :=
  if msg_channel msg ≠ MIDI_CHANNEL then (st, [])
  else
    match msg with
    | .note_on _ note velocity =>
        if velocity = 0 then handle_note_off dbg note st
        else handle_note_on env dbg note st
    | .note_off _ note _ => handle_note_off dbg note st
    | .control_change ch control value =>
        if control = TOUCHPAD_CONTROLLER then
          handle_touchpad_vertical (value : Int) st
        else
          (st, [Effect.err ("Info: Unsupported MIDI message type \x27control_change\x27 on channel " ++ toString ch)])
    | .pitchwheel _ pitch => handle_touchpad_horizontal pitch st
    | .other ch t =>
        (st, [Effect.err ("Info: Unsupported MIDI message type \x27" ++ t ++ "\x27 on channel " ++ toString ch)])

/-- Oracle where every injection succeeds and search always finds
window "777". -/
def envOk : Env :=
  { searchFn := fun _ => some "777", runFn := fun _ => 0, now := 5 }

/-- Oracle where every injection fails and search always finds
window "777". -/
def envFail : Env :=
  { searchFn := fun _ => some "777", runFn := fun _ => 1, now := 5 }

/-- Oracle where search never finds a window and injections fail. -/
def envNoWin : Env :=
  { searchFn := fun _ => none, runFn := fun _ => 1, now := 5 }

/-- Initial state with window "42" already cached. -/
def stCached : St := { initialSt with ardour_window := some "42" }

/-- State with a live repeater registered for note 68. -/
def stLive : St :=
  { initialSt with
    held_repeaters := [(68, { stop_event := false, alive := true })] }

/-- State with note 68 active and its repeater live. -/
def stActive : St :=
  { initialSt with
    active_notes := [(68, 5)],
    held_repeaters := [(68, { stop_event := false, alive := true })] }

/-- The arrow-left action from `NOTE_ACTIONS`. -/
def actLeft : Action :=
  { kind := "key", value := "Left", immediate_count := 1,
    hold_repeat_count := some 1 }

theorem alistLookup_insert_self {α : Type} (l : List (Nat × α)) (k : Nat) (v : α) :
    alistLookup (alistInsert l k v) k = some v := by
  simp [alistInsert, alistLookup]

theorem alistLookup_remove_self {α : Type} (l : List (Nat × α)) (k : Nat) :
    alistLookup (alistRemove l k) k = none := by
  induction l with
  | nil => rfl
  | cons p rest ih =>
      by_cases h : p.1 = k
      · simpa [alistRemove, List.filter_cons, h] using ih
      · simpa [alistRemove, List.filter_cons, h, alistLookup] using ih

theorem get_ardour_window_fields (env : Env) (force : Bool) (st : St) :
    (get_ardour_window env force st).2.runCalls = st.runCalls ∧
    (get_ardour_window env force st).2.held_repeaters = st.held_repeaters ∧
    (get_ardour_window env force st).2.last_touchpad_cc = st.last_touchpad_cc ∧
    (get_ardour_window env force st).2.last_touchpad_pitch = st.last_touchpad_pitch ∧
    (get_ardour_window env force st).2.active_notes = st.active_notes := by
  unfold get_ardour_window
  cases force <;> cases h : st.ardour_window <;> simp [h]

/-- C8: every message whose channel differs from `MIDI_CHANNEL` is
dropped by the event loop before classification, with unchanged state,
zero side effects and zero diagnostics, whatever its type, note,
debug-toggle value or oracle. -/
theorem C8_channel_filter (env : Env) (dbg : Bool) (msg : MidiMsg) (st : St)
    (h : msg_channel msg ≠ MIDI_CHANNEL) :
    process_msg env dbg msg st = (st, []) := by
  simp [process_msg, h]

theorem C8_witness :
    msg_channel (MidiMsg.note_on 3 49 100) ≠ MIDI_CHANNEL ∧
    process_msg envOk DEBUG_NOTES (MidiMsg.note_on 3 49 100) initialSt =
      (initialSt, []) :=
  ⟨by decide, C8_channel_filter envOk DEBUG_NOTES (MidiMsg.note_on 3 49 100)
    initialSt (by decide)⟩

/-- C9: dispatching with an explicit repetition count of zero behaves
exactly like passing no count: `count or action.immediate_count`
treats `0` as falsy, so the immediate count is used and a caller can
never obtain zero repetitions. -/
theorem C9_zero_count_fallback (env : Env) (action : Action) (st : St) :
    send_action env action (some 0) st = send_action env action none st ∧
    py_or_count (some 0) action.immediate_count = action.immediate_count ∧
    py_or_count none action.immediate_count = action.immediate_count ∧
    (∀ c : Option Nat,
      action.immediate_count ≠ 0 → py_or_count c action.immediate_count ≠ 0) := by
  refine ⟨by simp [send_action, py_or_count], rfl, rfl, ?_⟩
  intro c hc
  cases c with
  | none => simpa [py_or_count] using hc
  | some n =>
      by_cases hn : n = 0 <;> simp [py_or_count, hn, hc]

theorem C9_witness :
    actLeft.immediate_count ≠ 0 ∧
    py_or_count (some 0) actLeft.immediate_count ≠ 0 :=
  ⟨by decide, (C9_zero_count_fallback envOk actLeft initialSt).2.2.2 (some 0)
    (by decide)⟩

/-- C10: an action whose hold-repeat count is `0` (not merely unset)
makes `start_repeat` a no-op: no task spawned, registry unchanged,
identical to the behavior with an absent hold-repeat count. -/
theorem C10_zero_hold_no_task (note : Nat) (k v : String) (ic : Nat) (st : St) :
    start_repeat note
      { kind := k, value := v, immediate_count := ic,
        hold_repeat_count := some 0 } st = (st, []) ∧
    start_repeat note
      { kind := k, value := v, immediate_count := ic,
        hold_repeat_count := some 0 } st =
      start_repeat note
        { kind := k, value := v, immediate_count := ic,
          hold_repeat_count := none } st := by
  constructor <;> simp [start_repeat, hold_repeat_falsy]

/-- C2: at most one live repeat task per note. A second `start_repeat`
without an intervening `stop_repeat` is a no-op, the two calls spawn at
most one thread in total, and a start request for a note whose
registered handle is alive changes nothing. The check-then-insert is a
single atomic step, mirroring the `with repeat_lock` critical section. -/
theorem C2_start_repeat_idempotent (note : Nat) (action : Action) (st : St) :
    start_repeat note action (start_repeat note action st).1 =
      ((start_repeat note action st).1, []) ∧
    countSpawn (start_repeat note action st).2 +
      countSpawn (start_repeat note action (start_repeat note action st).1).2 ≤ 1 ∧
    (∀ h : RepeaterHandle, alistLookup st.held_repeaters note = some h →
      h.alive = true → start_repeat note action st = (st, [])) := by
  by_cases hf : hold_repeat_falsy action
  · simp [start_repeat, hf, countSpawn]
  · cases hL : alistLookup st.held_repeaters note with
    | none =>
        simp [start_repeat, hf, hL, alistLookup_insert_self, countSpawn]
    | some h =>
        by_cases ha : h.alive
        · simp [start_repeat, hf, hL, ha, countSpawn]
        · simp [start_repeat, hf, hL, ha, alistLookup_insert_self, countSpawn]

theorem C2_witness :
    alistLookup stLive.held_repeaters 68 =
      some { stop_event := false, alive := true } ∧
    RepeaterHandle.alive { stop_event := false, alive := true } = true ∧
    start_repeat 68 actLeft stLive = (stLive, []) :=
  ⟨by decide, rfl,
   (C2_start_repeat_idempotent 68 actLeft stLive).2.2
     { stop_event := false, alive := true } (by decide) rfl⟩

/-- C6 counterexample: with the script's `DEBUG_NOTES = False`,
`stop_repeat` on a note with no registered task emits zero
diagnostics, not one (the message goes through the suppressed `debug`
channel); the registry is indeed left unchanged. -/
theorem C6_counterexample :
    stop_repeat DEBUG_NOTES 7 initialSt = (initialSt, []) ∧
    ¬ countErr (stop_repeat DEBUG_NOTES 7 initialSt).2 = 1 := by
  constructor
  · rfl
  · decide

/-- C6 (amended): `stop_repeat` on a note with no registered task is a
total function (no exception), leaves the state unchanged, and emits
exactly one diagnostic when `DEBUG_NOTES` is enabled and none when it
is disabled (the script's default); on a registered note it removes
the entry and signals that handle's stop event. -/
theorem C6_stop_repeat_safe (dbg : Bool) (note : Nat) (st : St) :
    (alistLookup st.held_repeaters note = none →
       stop_repeat dbg note st =
         (st, if dbg then
            [Effect.err ("[repeat] stop requested for note " ++ toString note ++
              " but no repeater active")]
          else []) ∧
       countErr (stop_repeat dbg note st).2 = (if dbg then 1 else 0)) ∧
    (∀ h : RepeaterHandle, alistLookup st.held_repeaters note = some h →
       stop_repeat dbg note st =
         ({ st with held_repeaters := alistRemove st.held_repeaters note },
          [Effect.setStop note])) := by
  constructor
  · intro hnone
    cases dbg <;> simp [stop_repeat, hnone, debug, countErr]
  · intro h hsome
    simp [stop_repeat, hsome]

theorem C6_witness :
    alistLookup initialSt.held_repeaters 7 = none ∧
    (stop_repeat true 7 initialSt =
       (initialSt, if true then
          [Effect.err ("[repeat] stop requested for note " ++ toString 7 ++
            " but no repeater active")]
        else []) ∧
     countErr (stop_repeat true 7 initialSt).2 = (if true then 1 else 0)) :=
  ⟨rfl, (C6_stop_repeat_safe true 7 initialSt).1 rfl⟩

/-- C3: for each axis, the first sample after initialization only
stores the baseline and produces no motion; a later sample with raw
value v1 after stored value v0 updates the baseline to v1 and, for a
non-zero delta, issues exactly the relative-motion call with the delta
scaled by that axis's sensitivity and truncated toward zero (a zero
delta issues no motion call). `move_mouse` itself suppresses the
subprocess when the truncated value is zero on both axes. -/
theorem C3_integrator (v0 v1 : Int) (st : St) :
    (st.last_touchpad_cc = none →
       handle_touchpad_vertical v1 st =
         ({ st with last_touchpad_cc := some v1 }, [])) ∧
    (st.last_touchpad_cc = some v0 →
       handle_touchpad_vertical v1 st =
         ({ st with last_touchpad_cc := some v1 },
          if v1 - v0 = 0 then []
          else move_mouse 0 (py_int_trunc ((v1 - v0) * TOUCHPAD_Y_SENSITIVITY)))) ∧
    (st.last_touchpad_pitch = none →
       handle_touchpad_horizontal v1 st =
         ({ st with last_touchpad_pitch := some v1 }, [])) ∧
    (st.last_touchpad_pitch = some v0 →
       handle_touchpad_horizontal v1 st =
         ({ st with last_touchpad_pitch := some v1 },
          if v1 - v0 = 0 then []
          else move_mouse (py_int_trunc ((v1 - v0) * TOUCHPAD_X_SENSITIVITY)) 0)) := by
  refine ⟨?_, ?_, ?_, ?_⟩
  · intro h
    simp [handle_touchpad_vertical, h]
  · intro h
    by_cases hd : v1 - v0 = 0 <;>
      simp [handle_touchpad_vertical, h, hd]
  · intro h
    simp [handle_touchpad_horizontal, h]
  · intro h
    by_cases hd : v1 - v0 = 0 <;>
      simp [handle_touchpad_horizontal, h, hd]

theorem C3_witness :
    (({ initialSt with last_touchpad_cc := some 64 } : St).last_touchpad_cc =
       some 64) ∧
    handle_touchpad_vertical 70 { initialSt with last_touchpad_cc := some 64 } =
      ({ { initialSt with last_touchpad_cc := some 64 } with
          last_touchpad_cc := some (70 : Int) },
       if (70 : Int) - 64 = 0 then []
       else move_mouse 0 (py_int_trunc (((70 : Int) - 64) * TOUCHPAD_Y_SENSITIVITY))) :=
  ⟨rfl, (C3_integrator 64 70 { initialSt with last_touchpad_cc := some 64 }).2.1 rfl⟩

/-- C5: when non-forced window resolution finds no window, delivery
reports the window-not-found diagnostic and returns false with no
injection call and no other state change (only the locator's own
cache/call counter are touched by the failed resolution). -/
theorem C5_no_window (env : Env) (b : String → List String) (st : St)
    (hw : (get_ardour_window env false st).1 = none) :
    run_with_window env b st =
      (false, (get_ardour_window env false st).2,
       [Effect.err "Error: Ardour window not found; cannot send events."]) ∧
    countRun (run_with_window env b st).2.2 = 0 ∧
    countErr (run_with_window env b st).2.2 = 1 ∧
    (run_with_window env b st).2.1.runCalls = st.runCalls ∧
    (run_with_window env b st).2.1.held_repeaters = st.held_repeaters ∧
    (run_with_window env b st).2.1.last_touchpad_cc = st.last_touchpad_cc ∧
    (run_with_window env b st).2.1.last_touchpad_pitch = st.last_touchpad_pitch ∧
    (run_with_window env b st).2.1.active_notes = st.active_notes := by
  have hfields := get_ardour_window_fields env false st
  rcases hg : get_ardour_window env false st with ⟨w, st1⟩
  rw [hg] at hw hfields
  subst hw
  unfold run_with_window
  rw [hg]
  simp [countRun, countErr]
  exact hfields

theorem C5_witness :
    (get_ardour_window envNoWin false initialSt).1 = none ∧
    (run_with_window envNoWin (fun w => ["xdotool", "key", w]) initialSt =
       (false, (get_ardour_window envNoWin false initialSt).2,
        [Effect.err "Error: Ardour window not found; cannot send events."]) ∧
     countRun (run_with_window envNoWin (fun w => ["xdotool", "key", w]) initialSt).2.2 = 0 ∧
     countErr (run_with_window envNoWin (fun w => ["xdotool", "key", w]) initialSt).2.2 = 1 ∧
     (run_with_window envNoWin (fun w => ["xdotool", "key", w]) initialSt).2.1.runCalls =
       initialSt.runCalls ∧
     (run_with_window envNoWin (fun w => ["xdotool", "key", w]) initialSt).2.1.held_repeaters =
       initialSt.held_repeaters ∧
     (run_with_window envNoWin (fun w => ["xdotool", "key", w]) initialSt).2.1.last_touchpad_cc =
       initialSt.last_touchpad_cc ∧
     (run_with_window envNoWin (fun w => ["xdotool", "key", w]) initialSt).2.1.last_touchpad_pitch =
       initialSt.last_touchpad_pitch ∧
     (run_with_window envNoWin (fun w => ["xdotool", "key", w]) initialSt).2.1.active_notes =
       initialSt.active_notes) :=
  ⟨rfl, C5_no_window envNoWin (fun w => ["xdotool", "key", w]) initialSt rfl⟩

/-- C1: when the window resolves but the first injection attempt
returns a non-zero status, the dispatcher force-refreshes the window
and retries exactly once: at most two injection calls ever happen; if
the forced refresh finds no window the retry is aborted (one injection
total, failure reported); if it finds one, the second and last
injection decides the outcome, a second failure producing the
delivery-failure diagnostic and a false result. -/
theorem C1_retry_once (env : Env) (b : String → List String) (st : St) (w : String)
    (hw : (get_ardour_window env false st).1 = some w)
    (hfail : env.runFn (get_ardour_window env false st).2.runCalls ≠ 0) :
    countRun (run_with_window env b st).2.2 ≤ 2 ∧
    ((get_ardour_window env true
        { (get_ardour_window env false st).2 with
          runCalls := (get_ardour_window env false st).2.runCalls + 1 }).1 = none →
       (run_with_window env b st).1 = false ∧
       countRun (run_with_window env b st).2.2 = 1 ∧
       countErr (run_with_window env b st).2.2 = 1 ∧
       Effect.err "Error: Failed to deliver events to Ardour window." ∈
         (run_with_window env b st).2.2) ∧
    (∀ w2 : String,
       (get_ardour_window env true
         { (get_ardour_window env false st).2 with
           runCalls := (get_ardour_window env false st).2.runCalls + 1 }).1 = some w2 →
       countRun (run_with_window env b st).2.2 = 2 ∧
       (env.runFn ((get_ardour_window env false st).2.runCalls + 1) = 0 →
          (run_with_window env b st).1 = true ∧
          countErr (run_with_window env b st).2.2 = 0) ∧
       (env.runFn ((get_ardour_window env false st).2.runCalls + 1) ≠ 0 →
          (run_with_window env b st).1 = false ∧
          countErr (run_with_window env b st).2.2 = 1 ∧
          Effect.err "Error: Failed to deliver events to Ardour window." ∈
            (run_with_window env b st).2.2)) := by
  rcases hg : get_ardour_window env false st with ⟨w1, st1⟩
  rw [hg] at hw hfail
  subst hw
  have hfields :=
    get_ardour_window_fields env true { st1 with runCalls := st1.runCalls + 1 }
  rcases hg2 : get_ardour_window env true { st1 with runCalls := st1.runCalls + 1 } with
    ⟨w2opt, st3⟩
  rw [hg2] at hfields
  have hrc3 : st3.runCalls = st1.runCalls + 1 := hfields.1
  unfold run_with_window
  rw [hg]
  simp only [hfail, if_neg, ite_false]
  rw [hg2]
  cases w2opt with
  | none =>
      simp [countRun, countErr]
  | some w2 =>
      by_cases h2 : env.runFn (st1.runCalls + 1) = 0 <;>
        simp [hrc3, h2, countRun, countErr]

theorem C1_witness :
    (get_ardour_window envFail false stCached).1 = some "42" ∧
    envFail.runFn (get_ardour_window envFail false stCached).2.runCalls ≠ 0 ∧
    ((run_with_window envFail (fun w => ["xdotool", "key", w]) stCached).1 = false ∧
     countErr (run_with_window envFail (fun w => ["xdotool", "key", w]) stCached).2.2 = 1 ∧
     Effect.err "Error: Failed to deliver events to Ardour window." ∈
       (run_with_window envFail (fun w => ["xdotool", "key", w]) stCached).2.2) :=
  ⟨rfl, by decide,
   ((C1_retry_once envFail (fun w => ["xdotool", "key", w]) stCached "42" rfl
       (by decide)).2.2 "777" rfl).2.2 (by decide)⟩

/-- C4: a note-press for a note outside `NOTE_ACTIONS` records the
active-note timestamp, makes no injection call, starts no repeat task,
leaves the repeat registry untouched and emits exactly one diagnostic;
a mapped note dispatches once with the default (immediate) count —
`py_or_count none` resolving to `immediate_count` — and then arms the
repeater. Stated at the script's `DEBUG_NOTES = false`. -/
theorem C4_note_press (env : Env) (note : Nat) (st : St) :
    (NOTE_ACTIONS note = none →
       handle_note_on env DEBUG_NOTES note st =
         ({ st with active_notes := alistInsert st.active_notes note env.now },
          [Effect.err ("Info: Unmapped note_on received for note " ++ toString note)]) ∧
       countRun (handle_note_on env DEBUG_NOTES note st).2 = 0 ∧
       countSpawn (handle_note_on env DEBUG_NOTES note st).2 = 0 ∧
       countErr (handle_note_on env DEBUG_NOTES note st).2 = 1 ∧
       (handle_note_on env DEBUG_NOTES note st).1.held_repeaters =
         st.held_repeaters ∧
       alistLookup (handle_note_on env DEBUG_NOTES note st).1.active_notes note =
         some env.now) ∧
    (∀ a : Action, NOTE_ACTIONS note = some a →
       handle_note_on env DEBUG_NOTES note st =
         ((start_repeat note a
             (send_action env a none
               { st with active_notes := alistInsert st.active_notes note env.now }).1).1,
          (send_action env a none
             { st with active_notes := alistInsert st.active_notes note env.now }).2 ++
          (start_repeat note a
             (send_action env a none
               { st with active_notes := alistInsert st.active_notes note env.now }).1).2) ∧
       py_or_count none a.immediate_count = a.immediate_count) := by
  constructor
  · intro hun
    simp [handle_note_on, hun, debug, DEBUG_NOTES, countRun, countSpawn, countErr,
      alistLookup_insert_self]
  · intro a ha
    simp [handle_note_on, ha, debug, DEBUG_NOTES, py_or_count]

theorem C4_witness :
    NOTE_ACTIONS 1 = none ∧
    (handle_note_on envOk DEBUG_NOTES 1 initialSt =
       ({ initialSt with
           active_notes := alistInsert initialSt.active_notes 1 envOk.now },
        [Effect.err ("Info: Unmapped note_on received for note " ++ toString 1)]) ∧
     countRun (handle_note_on envOk DEBUG_NOTES 1 initialSt).2 = 0 ∧
     countSpawn (handle_note_on envOk DEBUG_NOTES 1 initialSt).2 = 0 ∧
     countErr (handle_note_on envOk DEBUG_NOTES 1 initialSt).2 = 1 ∧
     (handle_note_on envOk DEBUG_NOTES 1 initialSt).1.held_repeaters =
       initialSt.held_repeaters ∧
     alistLookup (handle_note_on envOk DEBUG_NOTES 1 initialSt).1.active_notes 1 =
       some envOk.now) :=
  ⟨by decide, (C4_note_press envOk 1 initialSt).1 (by decide)⟩

/-- C7: a note-on with zero velocity takes exactly the note-release
path: it is processed identically to a note-off for the same note
(whatever that note-off's velocity), equals `handle_note_off`, removes
the active-note entry, performs no injection call, starts no repeat
task, and (at the script's `DEBUG_NOTES = false`) emits no stderr
diagnostic at all — in particular diagnostics occur only when the
entry was absent. -/
theorem C7_zero_velocity_release (env : Env) (note v : Nat) (st : St) :
    process_msg env DEBUG_NOTES (MidiMsg.note_on MIDI_CHANNEL note 0) st =
      process_msg env DEBUG_NOTES (MidiMsg.note_off MIDI_CHANNEL note v) st ∧
    process_msg env DEBUG_NOTES (MidiMsg.note_on MIDI_CHANNEL note 0) st =
      handle_note_off DEBUG_NOTES note st ∧
    alistLookup
      (process_msg env DEBUG_NOTES (MidiMsg.note_on MIDI_CHANNEL note 0) st).1.active_notes
      note = none ∧
    countRun (process_msg env DEBUG_NOTES (MidiMsg.note_on MIDI_CHANNEL note 0) st).2 = 0 ∧
    countSpawn (process_msg env DEBUG_NOTES (MidiMsg.note_on MIDI_CHANNEL note 0) st).2 = 0 ∧
    countErr (process_msg env DEBUG_NOTES (MidiMsg.note_on MIDI_CHANNEL note 0) st).2 = 0 := by
  have hmain : process_msg env DEBUG_NOTES (MidiMsg.note_on MIDI_CHANNEL note 0) st =
      handle_note_off DEBUG_NOTES note st := by
    simp [process_msg, msg_channel]
  have hoff : process_msg env DEBUG_NOTES (MidiMsg.note_off MIDI_CHANNEL note v) st =
      handle_note_off DEBUG_NOTES note st := by
    simp [process_msg, msg_channel]
  refine ⟨hmain.trans hoff.symm, hmain, ?_, ?_, ?_, ?_⟩ <;> rw [hmain] <;>
    cases hA : alistLookup st.active_notes note <;>
    cases hH : alistLookup st.held_repeaters note <;>
    simp [handle_note_off, stop_repeat, debug, DEBUG_NOTES, hA, hH,
      alistLookup_remove_self, countRun, countSpawn, countErr]

theorem C7_witness :
    process_msg envOk DEBUG_NOTES (MidiMsg.note_on MIDI_CHANNEL 68 0) stActive =
      handle_note_off DEBUG_NOTES 68 stActive ∧
    alistLookup
      (process_msg envOk DEBUG_NOTES (MidiMsg.note_on MIDI_CHANNEL 68 0) stActive).1.active_notes
      68 = none ∧
    countRun (process_msg envOk DEBUG_NOTES (MidiMsg.note_on MIDI_CHANNEL 68 0) stActive).2 = 0 :=
  ⟨(C7_zero_velocity_release envOk 68 0 stActive).2.1,
   (C7_zero_velocity_release envOk 68 0 stActive).2.2.1,
   (C7_zero_velocity_release envOk 68 0 stActive).2.2.2.1⟩

end MidiXdo
